import Mathlib

/-!
Shallow embedding of `src/dfinity_js_backend/src/index.ts` (pet-adoption
canister). The four `StableBTreeMap` stores are modelled as association
lists from string keys to records; `insert` replaces an existing binding
in place or appends a new one, `get` returns the first binding, `values`
the list of records. Generated values (`uuidv4`, `ic.caller()`,
`new Date().toISOString()`) are passed in as explicit parameters of each
operation. Candid guarantees every payload field is a string, so the
`typeof x === "string"` conjuncts of the validators are vacuous and
dropped.
-/

namespace PetAdoption

/-- JS `/^[0-9]{10,15}$/.test(phoneNumber)` (source `isValidPhoneNumber`). -/
def isValidPhoneNumber (phoneNumber : String) : Bool :=
  decide (10 ≤ phoneNumber.length) && decide (phoneNumber.length ≤ 15) &&
    phoneNumber.data.all Char.isDigit

/-- Split a character list at every occurrence of `sep` (the pieces do not
contain `sep`; splitting `""` yields `[[]]`). -/
def splitOnChar : List Char → Char → List (List Char)
  | [], _ => [[]]
  | c :: rest, sep =>
      match splitOnChar rest sep, decide (c = sep) with
      | parts, true => [] :: parts
      | p :: ps, false => (c :: p) :: ps
      | [], false => [[c]]

/-- JS `/^[^\s@]+@[^\s@]+\.[^\s@]+$/.test(email)` (source `isValidEmail`):
the string contains exactly one `@`, splitting it into a nonempty
whitespace-free local part and a whitespace-free domain that contains a
dot neither at its first nor at its last position. -/
def isValidEmail (email : String) : Bool :=
  match splitOnChar email.data '@' with
  | [loc, domain] =>
      !loc.isEmpty && loc.all (fun c => !c.isWhitespace) &&
      domain.all (fun c => !c.isWhitespace) &&
      (domain.drop 1).dropLast.contains '.'
  | _ => false

/-- JS `s.trim().length > 0`: the trimmed string is nonempty exactly when
some character is not whitespace. -/
def trimmedNonempty (s : String) : Bool :=
  s.data.any (fun c => !c.isWhitespace)

structure UserPayload where
  name : String
  phoneNumber : String
  email : String
  address : String
deriving DecidableEq

structure User where
  id : String
  principal : String
  name : String
  phoneNumber : String
  email : String
  address : String
  application : List String
deriving DecidableEq

structure PetPayload where
  name : String
  species : String
  breed : String
  gender : String
  age : String
  petImage : String
  description : String
  healthStatus : String
  shelterId : String
deriving DecidableEq

structure Pet where
  id : String
  name : String
  species : String
  breed : String
  gender : String
  age : String
  petImage : String
  description : String
  healthStatus : String
  shelterId : String
  status : String
deriving DecidableEq

structure PetImage where
  petId : String
  petImage : String
deriving DecidableEq

structure UpdatePetPayload where
  petId : String
  healthStatus : String
  age : String
deriving DecidableEq

structure ShelterPayload where
  name : String
  location : String
  phoneNumber : String
  email : String
deriving DecidableEq

structure Shelter where
  id : String
  principal : String
  name : String
  location : String
  phoneNumber : String
  email : String
  pets : List String
deriving DecidableEq

structure UpdateShelterPayload where
  id : String
  phoneNumber : String
  email : String
deriving DecidableEq

structure AdoptionPayload where
  petId : String
  userId : String
  userPhoneNumber : String
  address : String
  reasonForAdoption : String
deriving DecidableEq

structure AdoptionRecords where
  adoptionId : String
  userId : String
  petId : String
  petName : String
  userName : String
  userPhoneNumber : String
  address : String
  reasonForAdoption : String
  dateOfAdoption : String
  status : String
deriving DecidableEq

structure UpdateAdoption where
  adoptionId : String
  userName : String
  userPhoneNumber : String
  address : String
  reasonForAdoption : String
deriving DecidableEq

/-- The `Error` Candid variant of the source. -/
inductive Error where
  | NotFound : String → Error
  | InvalidPayload : String → Error
  | ValidationError : String → Error
deriving DecidableEq

instance {ε α : Type} [DecidableEq ε] [DecidableEq α] : DecidableEq (Except ε α) :=
  fun x y =>
    match x, y with
    | .error e, .error e' =>
        if h : e = e' then .isTrue (by rw [h]) else .isFalse (by simp [h])
    | .ok a, .ok a' =>
        if h : a = a' then .isTrue (by rw [h]) else .isFalse (by simp [h])
    | .error _, .ok _ => .isFalse (by simp)
    | .ok _, .error _ => .isFalse (by simp)

/-- Source `validateUserPayload` (the `typeof` string checks are vacuous). -/
def validateUserPayload (p : UserPayload) : Bool :=
  trimmedNonempty p.name && isValidPhoneNumber p.phoneNumber &&
  isValidEmail p.email && trimmedNonempty p.address

/-- The body of source `validatePetPayload`, abstracted over the nine
destructured fields so that it can also be applied to the merged record
of `updatePetInfo`. -/
def validatePetFields (name species breed gender age petImage description
    healthStatus shelterId : String) : Bool :=
  trimmedNonempty name && trimmedNonempty species && trimmedNonempty breed &&
  trimmedNonempty gender && trimmedNonempty age && trimmedNonempty petImage &&
  trimmedNonempty description && trimmedNonempty healthStatus &&
  trimmedNonempty shelterId

/-- Source `validatePetPayload` applied to a `PetPayload`. -/
def validatePetPayload (p : PetPayload) : Bool :=
  validatePetFields p.name p.species p.breed p.gender p.age p.petImage
    p.description p.healthStatus p.shelterId

/-- The body of source `validateShelterPayload`, abstracted over the four
destructured fields (also used on the merged record of `updateShelterInfo`). -/
def validateShelterFields (name location phoneNumber email : String) : Bool :=
  trimmedNonempty name && trimmedNonempty location &&
  isValidPhoneNumber phoneNumber && isValidEmail email

/-- Source `validateShelterPayload` applied to a `ShelterPayload`. -/
def validateShelterPayload (p : ShelterPayload) : Bool :=
  validateShelterFields p.name p.location p.phoneNumber p.email

/-- Source `validateAdoptionPayload`. -/
def validateAdoptionPayload (p : AdoptionPayload) : Bool :=
  trimmedNonempty p.petId && trimmedNonempty p.userId &&
  isValidPhoneNumber p.userPhoneNumber && trimmedNonempty p.address &&
  trimmedNonempty p.reasonForAdoption

/-- A `StableBTreeMap(_, text, α)`: association list from string keys to
records. Key order is not modelled; no claim depends on it. -/
def Store (α : Type) : Type := List (String × α)

instance (α : Type) [DecidableEq α] : DecidableEq (Store α) :=
  inferInstanceAs (DecidableEq (List (String × α)))

/-- `StableBTreeMap.get`. -/
def Store.get {α : Type} : Store α → String → Option α
  | [], _ => none
  | (k, v) :: rest, key => if k = key then some v else Store.get rest key

/-- `StableBTreeMap.insert`: replace the binding in place, or append. -/
def Store.insert {α : Type} : Store α → String → α → Store α
  | [], key, v => [(key, v)]
  | (k, w) :: rest, key, v =>
      if k = key then (key, v) :: rest else (k, w) :: Store.insert rest key v

/-- `StableBTreeMap.values`. -/
def Store.values {α : Type} (m : Store α) : List α := m.map (·.2)

/-- The canister state: the four stores of the source. -/
structure State where
  users : Store User
  pets : Store Pet
  shelters : Store Shelter
  adoptions : Store AdoptionRecords
deriving DecidableEq

/-- The empty initial state (all four stables empty on deploy). -/
def initState : State := ⟨[], [], [], []⟩

/-- Source `addUser`. `caller` stands for `ic.caller()`, `userId` for the
generated `uuidv4()`. -/
def addUser (s : State) (caller userId : String) (payload : UserPayload) :
    Except Error User × State :=
  if !validateUserPayload payload then
    (.error (.ValidationError "Invalid user payload. Please check all fields."), s)
  else
    let user : User :=
      { id := userId, principal := caller, name := payload.name,
        phoneNumber := payload.phoneNumber, email := payload.email,
        address := payload.address, application := [] }
    (.ok user, { s with users := s.users.insert userId user })

/-- Source `addPet`. `petId` stands for the generated `uuidv4()`. -/
def addPet (s : State) (petId : String) (payload : PetPayload) :
    Except Error Pet × State :=
  if !validatePetPayload payload then
    (.error (.ValidationError "Invalid pet payload. Please check all fields."), s)
  else
    match s.shelters.get payload.shelterId with
    | none =>
        (.error (.NotFound ("Shelter with ID " ++ payload.shelterId ++ " not found.")), s)
    | some shelter =>
        let pet : Pet :=
          { id := petId, name := payload.name, species := payload.species,
            breed := payload.breed, gender := payload.gender, age := payload.age,
            petImage := payload.petImage, description := payload.description,
            healthStatus := payload.healthStatus, shelterId := payload.shelterId,
            status := "notAdopted" }
        let shelter' : Shelter := { shelter with pets := shelter.pets ++ [petId] }
        (.ok pet,
          { s with pets := s.pets.insert petId pet,
                   shelters := s.shelters.insert shelter.id shelter' })

/-- Source `addPetImage`. -/
def addPetImage (s : State) (payload : PetImage) :
    Except Error PetImage × State :=
  match s.pets.get payload.petId with
  | none => (.error (.NotFound ("Pet with ID " ++ payload.petId ++ " not found.")), s)
  | some pet =>
      let pet' : Pet := { pet with petImage := payload.petImage }
      (.ok payload, { s with pets := s.pets.insert pet.id pet' })

/-- Source `getPetsNotAdopted`. -/
def getPetsNotAdopted (s : State) : List Pet :=
  s.pets.values.filter (fun pet => pet.status = "notAdopted")

/-- Source `updatePetInfo`. The JS merge `{...pet, ...payload}` overwrites
`healthStatus` and `age` (the payload's `petId` matches no `Pet` field);
validation is run on the merged record. -/
def updatePetInfo (s : State) (payload : UpdatePetPayload) :
    Except Error Pet × State :=
  match s.pets.get payload.petId with
  | none => (.error (.NotFound "Pet not found."), s)
  | some pet =>
      let updatedPet : Pet :=
        { pet with healthStatus := payload.healthStatus, age := payload.age }
      if !validatePetFields updatedPet.name updatedPet.species updatedPet.breed
          updatedPet.gender updatedPet.age updatedPet.petImage
          updatedPet.description updatedPet.healthStatus updatedPet.shelterId then
        (.error (.ValidationError "Invalid pet payload. Please check all fields."), s)
      else
        (.ok updatedPet, { s with pets := s.pets.insert pet.id updatedPet })

/-- Source `createShelter`. -/
def createShelter (s : State) (caller shelterId : String) (payload : ShelterPayload) :
    Except Error Shelter × State :=
  if !validateShelterPayload payload then
    (.error (.ValidationError "Invalid shelter payload. Please check all fields."), s)
  else
    let shelter : Shelter :=
      { id := shelterId, principal := caller, name := payload.name,
        location := payload.location, phoneNumber := payload.phoneNumber,
        email := payload.email, pets := [] }
    (.ok shelter, { s with shelters := s.shelters.insert shelterId shelter })

/-- Source `updateShelterInfo`. The merge `{...shelter, ...payload}`
overwrites `id`, `phoneNumber`, `email`; the record is stored under the
old record's `id` field, as in the source (`SheltersStorage.insert(shelter.id, ...)`). -/
def updateShelterInfo (s : State) (payload : UpdateShelterPayload) :
    Except Error Shelter × State :=
  match s.shelters.get payload.id with
  | none => (.error (.NotFound "Shelter not found."), s)
  | some shelter =>
      let updatedShelter : Shelter :=
        { shelter with id := payload.id, phoneNumber := payload.phoneNumber,
                       email := payload.email }
      if !validateShelterFields updatedShelter.name updatedShelter.location
          updatedShelter.phoneNumber updatedShelter.email then
        (.error (.ValidationError "Invalid shelter payload. Please check all fields."), s)
      else
        (.ok updatedShelter,
          { s with shelters := s.shelters.insert shelter.id updatedShelter })

/-- JS `s.toLowerCase()` (Lean's `String.toLower`): lower-case every
character. -/
def lowerStr (s : String) : String :=
  ⟨s.data.map Char.toLower⟩

/-- Source `searchPetsBySpecies` (case-insensitive full-string equality). -/
def searchPetsBySpecies (s : State) (species : String) : List Pet :=
  s.pets.values.filter (fun pet => lowerStr pet.species = lowerStr species)

/-- Source `fileForAdoption`. `adoptionId` stands for the generated
`uuidv4()`, `now` for `new Date().toISOString()`. The stored record copies
`userPhoneNumber` and `address` from the looked-up user (via the
intermediate `adoption` object of the source), and only
`reasonForAdoption` from the payload. -/
def fileForAdoption (s : State) (adoptionId now : String)
    (payload : AdoptionPayload) : Except Error AdoptionRecords × State :=
  if !validateAdoptionPayload payload then
    (.error (.ValidationError "Invalid adoption payload. Please check all fields."), s)
  else
    match s.users.get payload.userId with
    | none => (.error (.NotFound ("User with ID " ++ payload.userId ++ " not found.")), s)
    | some user =>
        match s.pets.get payload.petId with
        | none => (.error (.NotFound ("Pet with ID " ++ payload.petId ++ " not found.")), s)
        | some pet =>
            if pet.status ≠ "notAdopted" then
              (.error (.InvalidPayload "Pet is not available for adoption."), s)
            else
              let records : AdoptionRecords :=
                { adoptionId := adoptionId, userId := user.id, petId := pet.id,
                  petName := pet.name, userName := user.name,
                  userPhoneNumber := user.phoneNumber, address := user.address,
                  reasonForAdoption := payload.reasonForAdoption,
                  dateOfAdoption := now, status := "pending" }
              let user' : User :=
                { user with application := user.application ++ [adoptionId] }
              (.ok records,
                { s with users := s.users.insert user.id user',
                         adoptions := s.adoptions.insert adoptionId records })

/-- Source `updateAdoptionRecord`. The source stores the result under
`adoption.id`, a field `AdoptionRecords` does not have (it is named
`adoptionId`); we model the store key as `adoption.adoptionId`, which is
the looked-up key. Error paths are reached before this point and are
unaffected. -/
def updateAdoptionRecord (s : State) (payload : UpdateAdoption) :
    Except Error AdoptionRecords × State :=
  match s.adoptions.get payload.adoptionId with
  | none => (.error (.NotFound "Adoption record not found."), s)
  | some adoption =>
      if !(trimmedNonempty payload.userName &&
           isValidPhoneNumber payload.userPhoneNumber &&
           trimmedNonempty payload.address &&
           trimmedNonempty payload.reasonForAdoption) then
        (.error (.ValidationError "Invalid adoption update payload."), s)
      else
        let updatedAdoption : AdoptionRecords :=
          { adoption with userName := payload.userName,
                          userPhoneNumber := payload.userPhoneNumber,
                          address := payload.address,
                          reasonForAdoption := payload.reasonForAdoption }
        (.ok updatedAdoption,
          { s with adoptions := s.adoptions.insert adoption.adoptionId updatedAdoption })

/-- Source `completeAdoption`. -/
def completeAdoption (s : State) (adoptionId : String) :
    Except Error AdoptionRecords × State :=
  match s.adoptions.get adoptionId with
  | none => (.error (.NotFound "Adoption record not found."), s)
  | some adoption =>
      if adoption.status ≠ "pending" then
        (.error (.InvalidPayload "Only pending adoptions can be completed."), s)
      else
        match s.pets.get adoption.petId with
        | none => (.error (.NotFound "Associated pet not found."), s)
        | some pet =>
            let updatedPet : Pet := { pet with status := "adopted" }
            let updatedAdoption : AdoptionRecords := { adoption with status := "completed" }
            (.ok updatedAdoption,
              { s with pets := s.pets.insert pet.id updatedPet,
                       adoptions := s.adoptions.insert adoptionId updatedAdoption })

/-- Source `failAdoption`. -/
def failAdoption (s : State) (adoptionId : String) :
    Except Error AdoptionRecords × State :=
  match s.adoptions.get adoptionId with
  | none => (.error (.NotFound "Adoption record not found."), s)
  | some adoption =>
      if adoption.status ≠ "pending" then
        (.error (.InvalidPayload "Only pending adoptions can be failed."), s)
      else
        let updatedAdoption : AdoptionRecords := { adoption with status := "failed" }
        (.ok updatedAdoption,
          { s with adoptions := s.adoptions.insert adoptionId updatedAdoption })

/-- One canister call: any update method with any arguments. The generated
`uuidv4()` id of a call is modelled as an arbitrary string that is not yet
a key of the store it will be inserted into (uuid freshness). Query
methods do not change the state. -/
inductive Step : State → State → Prop where
  | user (s : State) (caller userId : String) (p : UserPayload)
      (fresh : s.users.get userId = none) :
      Step s (addUser s caller userId p).2
  | pet (s : State) (petId : String) (p : PetPayload)
      (fresh : s.pets.get petId = none) :
      Step s (addPet s petId p).2
  | petImage (s : State) (p : PetImage) :
      Step s (addPetImage s p).2
  | petInfo (s : State) (p : UpdatePetPayload) :
      Step s (updatePetInfo s p).2
  | shelter (s : State) (caller shelterId : String) (p : ShelterPayload)
      (fresh : s.shelters.get shelterId = none) :
      Step s (createShelter s caller shelterId p).2
  | shelterInfo (s : State) (p : UpdateShelterPayload) :
      Step s (updateShelterInfo s p).2
  | file (s : State) (adoptionId now : String) (p : AdoptionPayload)
      (fresh : s.adoptions.get adoptionId = none) :
      Step s (fileForAdoption s adoptionId now p).2
  | adoptionInfo (s : State) (p : UpdateAdoption) :
      Step s (updateAdoptionRecord s p).2
  | complete (s : State) (adoptionId : String) :
      Step s (completeAdoption s adoptionId).2
  | fail (s : State) (adoptionId : String) :
      Step s (failAdoption s adoptionId).2

/-- States reachable from the freshly deployed canister by a sequence of
calls. -/
inductive Reachable : State → Prop where
  | init : Reachable initState
  | step {s s' : State} : Reachable s → Step s s' → Reachable s'

/-- The pending adoption records for a given pet. -/
def pendingFor (s : State) (petId : String) : List AdoptionRecords :=
  s.adoptions.values.filter
    (fun r => decide (r.status = "pending") && decide (r.petId = petId))

end PetAdoption

namespace PetAdoption

/-! Concrete scenario: a shelter `S`, a pet `P` in it, a user `U`, then two
adoption filings `A1`, `A2` for the same pet (both succeed, because filing
does not change `Pet.status`), then completion of `A1`. -/

def shelterPl : ShelterPayload :=
  ⟨"Happy Paws", "Springfield", "0123456789", "home@paws.io"⟩

def petPl : PetPayload :=
  ⟨"Rex", "Dog", "Labrador", "male", "2", "rex.png", "friendly", "good", "S"⟩

def userPl : UserPayload :=
  ⟨"Ann", "0123456789", "ann@mail.com", "12 Main St"⟩

def adoptPl : AdoptionPayload :=
  ⟨"P", "U", "0123456789", "12 Main St", "companionship"⟩

def st1 : State := (createShelter initState "owner1" "S" shelterPl).2

def st2 : State := (addPet st1 "P" petPl).2

def st3 : State := (addUser st2 "caller1" "U" userPl).2

def st4 : State := (fileForAdoption st3 "A1" "t1" adoptPl).2

def st5 : State := (fileForAdoption st4 "A2" "t2" adoptPl).2

def st6 : State := (completeAdoption st5 "A1").2

theorem reachable_st1 : Reachable st1 :=
  Reachable.step Reachable.init
    (Step.shelter initState "owner1" "S" shelterPl (by decide))

theorem reachable_st2 : Reachable st2 :=
  Reachable.step reachable_st1 (Step.pet st1 "P" petPl (by decide))

theorem reachable_st3 : Reachable st3 :=
  Reachable.step reachable_st2 (Step.user st2 "caller1" "U" userPl (by decide))

theorem reachable_st4 : Reachable st4 :=
  Reachable.step reachable_st3
    (Step.file st3 "A1" "t1" adoptPl (by decide))

theorem reachable_st5 : Reachable st5 :=
  Reachable.step reachable_st4
    (Step.file st4 "A2" "t2" adoptPl (by decide))

theorem reachable_st6 : Reachable st6 :=
  Reachable.step reachable_st5 (Step.complete st5 "A1")

/-! Basic store lemmas. -/

theorem Store.get_insert {α : Type} (m : Store α) (key k : String) (v : α) :
    (m.insert key v).get k = if key = k then some v else m.get k := by
  induction m with
  | nil => rfl
  | cons hd tl ih =>
      obtain ⟨k', v'⟩ := hd
      by_cases h : k' = key
      · subst h
        by_cases h2 : k' = k <;> simp [Store.insert, Store.get, h2]
      · by_cases h2 : k' = k
        · subst h2
          have hkk : ¬ key = k' := fun hh => h hh.symm
          simp [Store.insert, Store.get, h, hkk]
        · simp [Store.insert, Store.get, h, h2, ih]

theorem Store.get_insert_self {α : Type} (m : Store α) (key : String) (v : α) :
    (m.insert key v).get key = some v := by
  simp [Store.get_insert]

theorem Store.get_insert_ne {α : Type} (m : Store α) (key k : String) (v : α)
    (h : key ≠ k) : (m.insert key v).get k = m.get k := by
  simp [Store.get_insert, h]

/-! Record builders mirroring the object literals of the source. -/

/-- The `user` object built by `addUser`. -/
def newUser (caller userId : String) (p : UserPayload) : User :=
  { id := userId, principal := caller, name := p.name,
    phoneNumber := p.phoneNumber, email := p.email, address := p.address,
    application := [] }

/-- The `pet` object built by `addPet`. -/
def newPet (petId : String) (p : PetPayload) : Pet :=
  { id := petId, name := p.name, species := p.species, breed := p.breed,
    gender := p.gender, age := p.age, petImage := p.petImage,
    description := p.description, healthStatus := p.healthStatus,
    shelterId := p.shelterId, status := "notAdopted" }

/-- The `shelter` object built by `createShelter`. -/
def newShelter (caller shelterId : String) (p : ShelterPayload) : Shelter :=
  { id := shelterId, principal := caller, name := p.name,
    location := p.location, phoneNumber := p.phoneNumber, email := p.email,
    pets := [] }

/-- The `records` object built by a successful `fileForAdoption`. -/
def filedRecord (aid now : String) (user : User) (pet : Pet)
    (p : AdoptionPayload) : AdoptionRecords :=
  { adoptionId := aid, userId := user.id, petId := pet.id,
    petName := pet.name, userName := user.name,
    userPhoneNumber := user.phoneNumber, address := user.address,
    reasonForAdoption := p.reasonForAdoption, dateOfAdoption := now,
    status := "pending" }

/-- The merged record `{...pet, ...payload}` of `updatePetInfo`. -/
def mergedPet (pet : Pet) (p : UpdatePetPayload) : Pet :=
  { pet with healthStatus := p.healthStatus, age := p.age }

/-- The merged record `{...shelter, ...payload}` of `updateShelterInfo`. -/
def mergedShelter (sh : Shelter) (p : UpdateShelterPayload) : Shelter :=
  { sh with id := p.id, phoneNumber := p.phoneNumber, email := p.email }

/-- `validatePetFields` on a whole `Pet` record. -/
def validatePet (pet : Pet) : Bool :=
  validatePetFields pet.name pet.species pet.breed pet.gender pet.age
    pet.petImage pet.description pet.healthStatus pet.shelterId

/-- `validateShelterFields` on a whole `Shelter` record. -/
def validateShelter (sh : Shelter) : Bool :=
  validateShelterFields sh.name sh.location sh.phoneNumber sh.email

/-! Branch equations for each operation. -/

theorem addUser_invalid (s : State) (c uid : String) (p : UserPayload)
    (hv : validateUserPayload p = false) :
    addUser s c uid p =
      (.error (.ValidationError "Invalid user payload. Please check all fields."), s) := by
  simp [addUser, hv]

theorem addUser_ok (s : State) (c uid : String) (p : UserPayload)
    (hv : validateUserPayload p = true) :
    addUser s c uid p =
      (.ok (newUser c uid p),
       { s with users := s.users.insert uid (newUser c uid p) }) := by
  simp [addUser, hv, newUser]

theorem addPet_invalid (s : State) (petId : String) (p : PetPayload)
    (hv : validatePetPayload p = false) :
    addPet s petId p =
      (.error (.ValidationError "Invalid pet payload. Please check all fields."), s) := by
  simp [addPet, hv]

theorem addPet_noShelter (s : State) (petId : String) (p : PetPayload)
    (hv : validatePetPayload p = true)
    (hs : s.shelters.get p.shelterId = none) :
    addPet s petId p =
      (.error (.NotFound ("Shelter with ID " ++ p.shelterId ++ " not found.")), s) := by
  simp [addPet, hv, hs]

theorem addPet_ok (s : State) (petId : String) (p : PetPayload)
    (shelter : Shelter)
    (hv : validatePetPayload p = true)
    (hs : s.shelters.get p.shelterId = some shelter) :
    addPet s petId p =
      (.ok (newPet petId p),
       { s with pets := s.pets.insert petId (newPet petId p),
                shelters := s.shelters.insert shelter.id
                  { shelter with pets := shelter.pets ++ [petId] } }) := by
  simp [addPet, hv, hs, newPet]

theorem addPetImage_absent (s : State) (p : PetImage)
    (hp : s.pets.get p.petId = none) :
    addPetImage s p =
      (.error (.NotFound ("Pet with ID " ++ p.petId ++ " not found.")), s) := by
  simp [addPetImage, hp]

theorem addPetImage_ok (s : State) (p : PetImage) (pet : Pet)
    (hp : s.pets.get p.petId = some pet) :
    addPetImage s p =
      (.ok p, { s with pets := s.pets.insert pet.id { pet with petImage := p.petImage } }) := by
  simp [addPetImage, hp]

theorem updatePetInfo_absent (s : State) (p : UpdatePetPayload)
    (hp : s.pets.get p.petId = none) :
    updatePetInfo s p = (.error (.NotFound "Pet not found."), s) := by
  simp [updatePetInfo, hp]

theorem updatePetInfo_invalid (s : State) (p : UpdatePetPayload) (pet : Pet)
    (hp : s.pets.get p.petId = some pet)
    (hv : validatePet (mergedPet pet p) = false) :
    updatePetInfo s p =
      (.error (.ValidationError "Invalid pet payload. Please check all fields."), s) := by
  simp only [validatePet, mergedPet] at hv
  simp [updatePetInfo, hp, hv]

theorem updatePetInfo_ok (s : State) (p : UpdatePetPayload) (pet : Pet)
    (hp : s.pets.get p.petId = some pet)
    (hv : validatePet (mergedPet pet p) = true) :
    updatePetInfo s p =
      (.ok (mergedPet pet p),
       { s with pets := s.pets.insert pet.id (mergedPet pet p) }) := by
  simp only [validatePet, mergedPet] at hv
  simp [updatePetInfo, hp, hv, mergedPet]

theorem createShelter_invalid (s : State) (c shelterId : String) (p : ShelterPayload)
    (hv : validateShelterPayload p = false) :
    createShelter s c shelterId p =
      (.error (.ValidationError "Invalid shelter payload. Please check all fields."), s) := by
  simp [createShelter, hv]

theorem createShelter_ok (s : State) (c shelterId : String) (p : ShelterPayload)
    (hv : validateShelterPayload p = true) :
    createShelter s c shelterId p =
      (.ok (newShelter c shelterId p),
       { s with shelters := s.shelters.insert shelterId (newShelter c shelterId p) }) := by
  simp [createShelter, hv, newShelter]

theorem updateShelterInfo_absent (s : State) (p : UpdateShelterPayload)
    (hs : s.shelters.get p.id = none) :
    updateShelterInfo s p = (.error (.NotFound "Shelter not found."), s) := by
  simp [updateShelterInfo, hs]

theorem updateShelterInfo_invalid (s : State) (p : UpdateShelterPayload) (sh : Shelter)
    (hs : s.shelters.get p.id = some sh)
    (hv : validateShelter (mergedShelter sh p) = false) :
    updateShelterInfo s p =
      (.error (.ValidationError "Invalid shelter payload. Please check all fields."), s) := by
  simp only [validateShelter, mergedShelter] at hv
  simp [updateShelterInfo, hs, hv]

theorem updateShelterInfo_ok (s : State) (p : UpdateShelterPayload) (sh : Shelter)
    (hs : s.shelters.get p.id = some sh)
    (hv : validateShelter (mergedShelter sh p) = true) :
    updateShelterInfo s p =
      (.ok (mergedShelter sh p),
       { s with shelters := s.shelters.insert sh.id (mergedShelter sh p) }) := by
  simp only [validateShelter, mergedShelter] at hv
  simp [updateShelterInfo, hs, hv, mergedShelter]

theorem fileForAdoption_invalidPayload (s : State) (aid t : String) (p : AdoptionPayload)
    (hv : validateAdoptionPayload p = false) :
    fileForAdoption s aid t p =
      (.error (.ValidationError "Invalid adoption payload. Please check all fields."), s) := by
  simp [fileForAdoption, hv]

theorem fileForAdoption_noUser (s : State) (aid t : String) (p : AdoptionPayload)
    (hv : validateAdoptionPayload p = true)
    (hu : s.users.get p.userId = none) :
    fileForAdoption s aid t p =
      (.error (.NotFound ("User with ID " ++ p.userId ++ " not found.")), s) := by
  simp [fileForAdoption, hv, hu]

theorem fileForAdoption_noPet (s : State) (aid t : String) (p : AdoptionPayload)
    (user : User)
    (hv : validateAdoptionPayload p = true)
    (hu : s.users.get p.userId = some user)
    (hp : s.pets.get p.petId = none) :
    fileForAdoption s aid t p =
      (.error (.NotFound ("Pet with ID " ++ p.petId ++ " not found.")), s) := by
  simp [fileForAdoption, hv, hu, hp]

theorem fileForAdoption_unavailable (s : State) (aid t : String) (p : AdoptionPayload)
    (user : User) (pet : Pet)
    (hv : validateAdoptionPayload p = true)
    (hu : s.users.get p.userId = some user)
    (hp : s.pets.get p.petId = some pet)
    (hst : pet.status ≠ "notAdopted") :
    fileForAdoption s aid t p =
      (.error (.InvalidPayload "Pet is not available for adoption."), s) := by
  simp [fileForAdoption, hv, hu, hp, hst]

theorem fileForAdoption_ok (s : State) (aid t : String) (p : AdoptionPayload)
    (user : User) (pet : Pet)
    (hv : validateAdoptionPayload p = true)
    (hu : s.users.get p.userId = some user)
    (hp : s.pets.get p.petId = some pet)
    (hst : pet.status = "notAdopted") :
    fileForAdoption s aid t p =
      (.ok (filedRecord aid t user pet p),
       { s with users := s.users.insert user.id
                  { user with application := user.application ++ [aid] },
                adoptions := s.adoptions.insert aid (filedRecord aid t user pet p) }) := by
  simp [fileForAdoption, hv, hu, hp, hst, filedRecord]

theorem updateAdoptionRecord_absent (s : State) (p : UpdateAdoption)
    (ha : s.adoptions.get p.adoptionId = none) :
    updateAdoptionRecord s p = (.error (.NotFound "Adoption record not found."), s) := by
  simp [updateAdoptionRecord, ha]

theorem updateAdoptionRecord_invalid (s : State) (p : UpdateAdoption)
    (a : AdoptionRecords)
    (ha : s.adoptions.get p.adoptionId = some a)
    (hv : (trimmedNonempty p.userName && isValidPhoneNumber p.userPhoneNumber &&
           trimmedNonempty p.address && trimmedNonempty p.reasonForAdoption) = false) :
    updateAdoptionRecord s p =
      (.error (.ValidationError "Invalid adoption update payload."), s) := by
  simp only [updateAdoptionRecord, ha, hv]
  rfl

theorem completeAdoption_absent (s : State) (aid : String)
    (ha : s.adoptions.get aid = none) :
    completeAdoption s aid = (.error (.NotFound "Adoption record not found."), s) := by
  simp [completeAdoption, ha]

theorem completeAdoption_notPending (s : State) (aid : String) (a : AdoptionRecords)
    (ha : s.adoptions.get aid = some a)
    (hst : a.status ≠ "pending") :
    completeAdoption s aid =
      (.error (.InvalidPayload "Only pending adoptions can be completed."), s) := by
  simp [completeAdoption, ha, hst]

theorem completeAdoption_noPet (s : State) (aid : String) (a : AdoptionRecords)
    (ha : s.adoptions.get aid = some a)
    (hst : a.status = "pending")
    (hp : s.pets.get a.petId = none) :
    completeAdoption s aid = (.error (.NotFound "Associated pet not found."), s) := by
  simp [completeAdoption, ha, hst, hp]

theorem completeAdoption_ok (s : State) (aid : String) (a : AdoptionRecords)
    (pet : Pet)
    (ha : s.adoptions.get aid = some a)
    (hst : a.status = "pending")
    (hp : s.pets.get a.petId = some pet) :
    completeAdoption s aid =
      (.ok { a with status := "completed" },
       { s with pets := s.pets.insert pet.id { pet with status := "adopted" },
                adoptions := s.adoptions.insert aid { a with status := "completed" } }) := by
  simp [completeAdoption, ha, hst, hp]

theorem failAdoption_absent (s : State) (aid : String)
    (ha : s.adoptions.get aid = none) :
    failAdoption s aid = (.error (.NotFound "Adoption record not found."), s) := by
  simp [failAdoption, ha]

theorem failAdoption_notPending (s : State) (aid : String) (a : AdoptionRecords)
    (ha : s.adoptions.get aid = some a)
    (hst : a.status ≠ "pending") :
    failAdoption s aid =
      (.error (.InvalidPayload "Only pending adoptions can be failed."), s) := by
  simp [failAdoption, ha, hst]

theorem failAdoption_ok (s : State) (aid : String) (a : AdoptionRecords)
    (ha : s.adoptions.get aid = some a)
    (hst : a.status = "pending") :
    failAdoption s aid =
      (.ok { a with status := "failed" },
       { s with adoptions := s.adoptions.insert aid { a with status := "failed" } }) := by
  simp [failAdoption, ha, hst]

/-! Inversion lemmas: what a successful call entails. -/

theorem addPet_ok_inv (s : State) (petId : String) (p : PetPayload) (pet' : Pet)
    (h : (addPet s petId p).1 = .ok pet') :
    validatePetPayload p = true ∧ pet' = newPet petId p ∧
    ∃ shelter, s.shelters.get p.shelterId = some shelter ∧
      (addPet s petId p).2 =
        { s with pets := s.pets.insert petId (newPet petId p),
                 shelters := s.shelters.insert shelter.id
                   { shelter with pets := shelter.pets ++ [petId] } } := by
  cases hv : validatePetPayload p
  · rw [addPet_invalid s petId p hv] at h
    exact absurd h (by simp)
  · rcases hs : s.shelters.get p.shelterId with _ | shelter
    · rw [addPet_noShelter s petId p hv hs] at h
      exact absurd h (by simp)
    · have h' : newPet petId p = pet' := by
        rw [addPet_ok s petId p shelter hv hs] at h
        simpa using h
      rw [addPet_ok s petId p shelter hv hs]
      exact ⟨rfl, h'.symm, shelter, rfl, rfl⟩

theorem updatePetInfo_ok_inv (s : State) (p : UpdatePetPayload) (pet' : Pet)
    (h : (updatePetInfo s p).1 = .ok pet') :
    ∃ pet, s.pets.get p.petId = some pet ∧
      validatePet (mergedPet pet p) = true ∧ pet' = mergedPet pet p ∧
      (updatePetInfo s p).2 =
        { s with pets := s.pets.insert pet.id (mergedPet pet p) } := by
  rcases hp : s.pets.get p.petId with _ | pet
  · rw [updatePetInfo_absent s p hp] at h
    exact absurd h (by simp)
  · cases hv : validatePet (mergedPet pet p)
    · rw [updatePetInfo_invalid s p pet hp hv] at h
      exact absurd h (by simp)
    · have h' : mergedPet pet p = pet' := by
        rw [updatePetInfo_ok s p pet hp hv] at h
        simpa using h
      rw [updatePetInfo_ok s p pet hp hv]
      exact ⟨pet, rfl, hv, h'.symm, rfl⟩

theorem fileForAdoption_ok_inv (s : State) (aid t : String) (p : AdoptionPayload)
    (rec : AdoptionRecords)
    (h : (fileForAdoption s aid t p).1 = .ok rec) :
    validateAdoptionPayload p = true ∧
    ∃ user pet, s.users.get p.userId = some user ∧
      s.pets.get p.petId = some pet ∧ pet.status = "notAdopted" ∧
      rec = filedRecord aid t user pet p ∧
      (fileForAdoption s aid t p).2 =
        { s with users := s.users.insert user.id
                   { user with application := user.application ++ [aid] },
                 adoptions := s.adoptions.insert aid (filedRecord aid t user pet p) } := by
  cases hv : validateAdoptionPayload p
  · rw [fileForAdoption_invalidPayload s aid t p hv] at h
    exact absurd h (by simp)
  · rcases hu : s.users.get p.userId with _ | user
    · rw [fileForAdoption_noUser s aid t p hv hu] at h
      exact absurd h (by simp)
    · rcases hp : s.pets.get p.petId with _ | pet
      · rw [fileForAdoption_noPet s aid t p user hv hu hp] at h
        exact absurd h (by simp)
      · by_cases hst : pet.status = "notAdopted"
        · have h' : filedRecord aid t user pet p = rec := by
            rw [fileForAdoption_ok s aid t p user pet hv hu hp hst] at h
            simpa using h
          rw [fileForAdoption_ok s aid t p user pet hv hu hp hst]
          exact ⟨rfl, user, pet, rfl, rfl, hst, h'.symm, rfl⟩
        · rw [fileForAdoption_unavailable s aid t p user pet hv hu hp hst] at h
          exact absurd h (by simp)

theorem completeAdoption_ok_inv (s : State) (aid : String) (rec : AdoptionRecords)
    (h : (completeAdoption s aid).1 = .ok rec) :
    ∃ a pet, s.adoptions.get aid = some a ∧ a.status = "pending" ∧
      s.pets.get a.petId = some pet ∧ rec = { a with status := "completed" } ∧
      (completeAdoption s aid).2 =
        { s with pets := s.pets.insert pet.id { pet with status := "adopted" },
                 adoptions := s.adoptions.insert aid { a with status := "completed" } } := by
  rcases ha : s.adoptions.get aid with _ | a
  · rw [completeAdoption_absent s aid ha] at h
    exact absurd h (by simp)
  · by_cases hst : a.status = "pending"
    · rcases hp : s.pets.get a.petId with _ | pet
      · rw [completeAdoption_noPet s aid a ha hst hp] at h
        exact absurd h (by simp)
      · have h' : { a with status := "completed" } = rec := by
          rw [completeAdoption_ok s aid a pet ha hst hp] at h
          simpa using h
        rw [completeAdoption_ok s aid a pet ha hst hp]
        exact ⟨a, pet, rfl, hst, hp, h'.symm, rfl⟩
    · rw [completeAdoption_notPending s aid a ha hst] at h
      exact absurd h (by simp)

/-! Error results leave the state unchanged, operation by operation. -/

theorem addUser_error (s : State) (c uid : String) (p : UserPayload) (e : Error)
    (h : (addUser s c uid p).1 = .error e) : (addUser s c uid p).2 = s := by
  cases hv : validateUserPayload p
  · rw [addUser_invalid s c uid p hv]
  · rw [addUser_ok s c uid p hv] at h
    exact absurd h (by simp)

theorem addPet_error (s : State) (petId : String) (p : PetPayload) (e : Error)
    (h : (addPet s petId p).1 = .error e) : (addPet s petId p).2 = s := by
  cases hv : validatePetPayload p
  · rw [addPet_invalid s petId p hv]
  · rcases hs : s.shelters.get p.shelterId with _ | shelter
    · rw [addPet_noShelter s petId p hv hs]
    · rw [addPet_ok s petId p shelter hv hs] at h
      exact absurd h (by simp)

theorem addPetImage_error (s : State) (p : PetImage) (e : Error)
    (h : (addPetImage s p).1 = .error e) : (addPetImage s p).2 = s := by
  rcases hp : s.pets.get p.petId with _ | pet
  · rw [addPetImage_absent s p hp]
  · rw [addPetImage_ok s p pet hp] at h
    exact absurd h (by simp)

theorem updatePetInfo_error (s : State) (p : UpdatePetPayload) (e : Error)
    (h : (updatePetInfo s p).1 = .error e) : (updatePetInfo s p).2 = s := by
  rcases hp : s.pets.get p.petId with _ | pet
  · rw [updatePetInfo_absent s p hp]
  · cases hv : validatePet (mergedPet pet p)
    · rw [updatePetInfo_invalid s p pet hp hv]
    · rw [updatePetInfo_ok s p pet hp hv] at h
      exact absurd h (by simp)

theorem createShelter_error (s : State) (c shelterId : String) (p : ShelterPayload)
    (e : Error) (h : (createShelter s c shelterId p).1 = .error e) :
    (createShelter s c shelterId p).2 = s := by
  cases hv : validateShelterPayload p
  · rw [createShelter_invalid s c shelterId p hv]
  · rw [createShelter_ok s c shelterId p hv] at h
    exact absurd h (by simp)

theorem updateShelterInfo_error (s : State) (p : UpdateShelterPayload) (e : Error)
    (h : (updateShelterInfo s p).1 = .error e) : (updateShelterInfo s p).2 = s := by
  rcases hs : s.shelters.get p.id with _ | sh
  · rw [updateShelterInfo_absent s p hs]
  · cases hv : validateShelter (mergedShelter sh p)
    · rw [updateShelterInfo_invalid s p sh hs hv]
    · rw [updateShelterInfo_ok s p sh hs hv] at h
      exact absurd h (by simp)

theorem fileForAdoption_error (s : State) (aid t : String) (p : AdoptionPayload)
    (e : Error) (h : (fileForAdoption s aid t p).1 = .error e) :
    (fileForAdoption s aid t p).2 = s := by
  cases hv : validateAdoptionPayload p
  · rw [fileForAdoption_invalidPayload s aid t p hv]
  · rcases hu : s.users.get p.userId with _ | user
    · rw [fileForAdoption_noUser s aid t p hv hu]
    · rcases hp : s.pets.get p.petId with _ | pet
      · rw [fileForAdoption_noPet s aid t p user hv hu hp]
      · by_cases hst : pet.status = "notAdopted"
        · rw [fileForAdoption_ok s aid t p user pet hv hu hp hst] at h
          exact absurd h (by simp)
        · rw [fileForAdoption_unavailable s aid t p user pet hv hu hp hst]

theorem updateAdoptionRecord_error (s : State) (p : UpdateAdoption) (e : Error)
    (h : (updateAdoptionRecord s p).1 = .error e) : (updateAdoptionRecord s p).2 = s := by
  rcases ha : s.adoptions.get p.adoptionId with _ | a
  · rw [updateAdoptionRecord_absent s p ha]
  · cases hv : (trimmedNonempty p.userName && isValidPhoneNumber p.userPhoneNumber &&
        trimmedNonempty p.address && trimmedNonempty p.reasonForAdoption)
    · rw [updateAdoptionRecord_invalid s p a ha hv]
    · simp [updateAdoptionRecord, ha, hv] at h

theorem completeAdoption_error (s : State) (aid : String) (e : Error)
    (h : (completeAdoption s aid).1 = .error e) : (completeAdoption s aid).2 = s := by
  rcases ha : s.adoptions.get aid with _ | a
  · rw [completeAdoption_absent s aid ha]
  · by_cases hst : a.status = "pending"
    · rcases hp : s.pets.get a.petId with _ | pet
      · rw [completeAdoption_noPet s aid a ha hst hp]
      · rw [completeAdoption_ok s aid a pet ha hst hp] at h
        exact absurd h (by simp)
    · rw [completeAdoption_notPending s aid a ha hst]

theorem failAdoption_error (s : State) (aid : String) (e : Error)
    (h : (failAdoption s aid).1 = .error e) : (failAdoption s aid).2 = s := by
  rcases ha : s.adoptions.get aid with _ | a
  · rw [failAdoption_absent s aid ha]
  · by_cases hst : a.status = "pending"
    · rw [failAdoption_ok s aid a ha hst] at h
      exact absurd h (by simp)
    · rw [failAdoption_notPending s aid a ha hst]

/-! Operations that never touch the Pets or Shelters stores. -/

theorem addUser_pets_shelters (s : State) (c uid : String) (p : UserPayload) :
    (addUser s c uid p).2.pets = s.pets ∧
    (addUser s c uid p).2.shelters = s.shelters := by
  cases hv : validateUserPayload p
  · rw [addUser_invalid s c uid p hv]; exact ⟨rfl, rfl⟩
  · rw [addUser_ok s c uid p hv]; exact ⟨rfl, rfl⟩

theorem fileForAdoption_pets_shelters (s : State) (aid t : String)
    (p : AdoptionPayload) :
    (fileForAdoption s aid t p).2.pets = s.pets ∧
    (fileForAdoption s aid t p).2.shelters = s.shelters := by
  cases hv : validateAdoptionPayload p
  · rw [fileForAdoption_invalidPayload s aid t p hv]; exact ⟨rfl, rfl⟩
  · rcases hu : s.users.get p.userId with _ | user
    · rw [fileForAdoption_noUser s aid t p hv hu]; exact ⟨rfl, rfl⟩
    · rcases hp : s.pets.get p.petId with _ | pet
      · rw [fileForAdoption_noPet s aid t p user hv hu hp]; exact ⟨rfl, rfl⟩
      · by_cases hst : pet.status = "notAdopted"
        · rw [fileForAdoption_ok s aid t p user pet hv hu hp hst]; exact ⟨rfl, rfl⟩
        · rw [fileForAdoption_unavailable s aid t p user pet hv hu hp hst]
          exact ⟨rfl, rfl⟩

theorem updateAdoptionRecord_pets_shelters (s : State) (p : UpdateAdoption) :
    (updateAdoptionRecord s p).2.pets = s.pets ∧
    (updateAdoptionRecord s p).2.shelters = s.shelters := by
  rcases ha : s.adoptions.get p.adoptionId with _ | a
  · rw [updateAdoptionRecord_absent s p ha]; exact ⟨rfl, rfl⟩
  · cases hv : (trimmedNonempty p.userName && isValidPhoneNumber p.userPhoneNumber &&
        trimmedNonempty p.address && trimmedNonempty p.reasonForAdoption)
    · rw [updateAdoptionRecord_invalid s p a ha hv]; exact ⟨rfl, rfl⟩
    · simp [updateAdoptionRecord, ha, hv]

theorem failAdoption_pets_shelters (s : State) (aid : String) :
    (failAdoption s aid).2.pets = s.pets ∧
    (failAdoption s aid).2.shelters = s.shelters := by
  rcases ha : s.adoptions.get aid with _ | a
  · rw [failAdoption_absent s aid ha]; exact ⟨rfl, rfl⟩
  · by_cases hst : a.status = "pending"
    · rw [failAdoption_ok s aid a ha hst]; exact ⟨rfl, rfl⟩
    · rw [failAdoption_notPending s aid a ha hst]; exact ⟨rfl, rfl⟩

/-! The shelter/pet referential invariant (claim C6) and the auxiliary
key-alignment invariants that make it inductive. -/

/-- Every pet record is stored under its own `id` field. -/
def PetKeysAligned (s : State) : Prop :=
  ∀ k pet, s.pets.get k = some pet → pet.id = k

/-- Every shelter record is stored under its own `id` field. -/
def ShelterKeysAligned (s : State) : Prop :=
  ∀ k sh, s.shelters.get k = some sh → sh.id = k

/-- Spec §3 invariant on shelters: every pet id in a shelter's `pets`
list references an existing pet whose `shelterId` equals that shelter's
id. -/
def ShelterPetsConsistent (s : State) : Prop :=
  ∀ k sh, s.shelters.get k = some sh → ∀ pid ∈ sh.pets,
    ∃ pet, s.pets.get pid = some pet ∧ pet.shelterId = sh.id

/-- The inductive strengthening preserved by every operation. -/
def GoodState (s : State) : Prop :=
  PetKeysAligned s ∧ ShelterKeysAligned s ∧ ShelterPetsConsistent s

theorem goodState_of_eq (s s' : State) (hp : s'.pets = s.pets)
    (hs : s'.shelters = s.shelters) (h : GoodState s) : GoodState s' := by
  obtain ⟨h1, h2, h3⟩ := h
  refine ⟨?_, ?_, ?_⟩
  · intro k pet hk
    exact h1 k pet (by rwa [hp] at hk)
  · intro k sh hk
    exact h2 k sh (by rwa [hs] at hk)
  · intro k sh hk pid hpid
    obtain ⟨pet, hpet, hpsh⟩ := h3 k sh (by rwa [hs] at hk) pid hpid
    exact ⟨pet, by rwa [hp], hpsh⟩

theorem goodState_pets_update (s : State) (k : String) (pet pet' : Pet)
    (hget : s.pets.get k = some pet)
    (hid : pet'.id = pet.id) (hsh : pet'.shelterId = pet.shelterId)
    (h : GoodState s) :
    GoodState { s with pets := s.pets.insert pet.id pet' } := by
  obtain ⟨h1, h2, h3⟩ := h
  have halign : pet.id = k := h1 k pet hget
  refine ⟨?_, h2, ?_⟩
  · intro k' q hq
    simp only [Store.get_insert] at hq
    by_cases hk : pet.id = k'
    · rw [if_pos hk] at hq
      cases hq
      rw [hid, hk]
    · rw [if_neg hk] at hq
      exact h1 k' q hq
  · intro k' sh hk pid hpid
    obtain ⟨q, hq, hqsh⟩ := h3 k' sh hk pid hpid
    by_cases hpk : pet.id = pid
    · refine ⟨pet', ?_, ?_⟩
      · simp [Store.get_insert, hpk]
      · have : q = pet := by
          rw [← hpk, halign] at hq
          rw [hget] at hq
          exact (Option.some.injEq _ _ ▸ hq).symm
        rw [hsh, ← hqsh, this]
    · exact ⟨q, by simp [Store.get_insert, hpk, hq], hqsh⟩

theorem goodState_shelters_update (s : State) (k : String) (sh sh' : Shelter)
    (hget : s.shelters.get k = some sh)
    (hid : sh'.id = sh.id) (hpets : sh'.pets = sh.pets)
    (h : GoodState s) :
    GoodState { s with shelters := s.shelters.insert sh.id sh' } := by
  obtain ⟨h1, h2, h3⟩ := h
  have halign : sh.id = k := h2 k sh hget
  refine ⟨h1, ?_, ?_⟩
  · intro k' q hq
    simp only [Store.get_insert] at hq
    by_cases hk : sh.id = k'
    · rw [if_pos hk] at hq
      cases hq
      rw [hid, hk]
    · rw [if_neg hk] at hq
      exact h2 k' q hq
  · intro k' q hq pid hpid
    simp only [Store.get_insert] at hq
    by_cases hk : sh.id = k'
    · rw [if_pos hk] at hq
      cases hq
      rw [hpets] at hpid
      obtain ⟨pet, hpet, hpsh⟩ := h3 k sh (halign ▸ hget) pid hpid
      exact ⟨pet, hpet, by rw [hid]; exact hpsh⟩
    · rw [if_neg hk] at hq
      exact h3 k' q hq pid hpid

theorem goodState_addPet (s : State) (petId : String) (p : PetPayload)
    (fresh : s.pets.get petId = none) (h : GoodState s) :
    GoodState (addPet s petId p).2 := by
  obtain ⟨h1, h2, h3⟩ := h
  cases hv : validatePetPayload p
  · rw [addPet_invalid s petId p hv]
    exact ⟨h1, h2, h3⟩
  · rcases hs : s.shelters.get p.shelterId with _ | shelter
    · rw [addPet_noShelter s petId p hv hs]
      exact ⟨h1, h2, h3⟩
    · rw [addPet_ok s petId p shelter hv hs]
      have halign : shelter.id = p.shelterId := h2 _ _ hs
      refine ⟨?_, ?_, ?_⟩
      · intro k q hq
        simp only [Store.get_insert] at hq
        by_cases hk : petId = k
        · rw [if_pos hk] at hq
          cases hq
          exact hk
        · rw [if_neg hk] at hq
          exact h1 k q hq
      · intro k q hq
        simp only [Store.get_insert] at hq
        by_cases hk : shelter.id = k
        · rw [if_pos hk] at hq
          cases hq
          exact hk
        · rw [if_neg hk] at hq
          exact h2 k q hq
      · intro k q hq pid hpid
        simp only [Store.get_insert] at hq
        by_cases hk : shelter.id = k
        · rw [if_pos hk] at hq
          cases hq
          simp only [List.mem_append, List.mem_singleton] at hpid
          rcases hpid with hpid | rfl
          · obtain ⟨pet, hpet, hpsh⟩ := h3 _ _ hs pid hpid
            have hne : petId ≠ pid := by
              intro hpp
              rw [← hpp, fresh] at hpet
              exact Option.noConfusion hpet
            refine ⟨pet, ?_, by rw [halign] at hpsh ⊢; exact hpsh⟩
            simp [Store.get_insert, hne, hpet]
          · refine ⟨newPet pid p, by simp [Store.get_insert], ?_⟩
            show p.shelterId = shelter.id
            exact halign.symm
        · rw [if_neg hk] at hq
          obtain ⟨pet, hpet, hpsh⟩ := h3 k q hq pid hpid
          have hne : petId ≠ pid := by
            intro hpp
            rw [← hpp, fresh] at hpet
            exact Option.noConfusion hpet
          exact ⟨pet, by simp [Store.get_insert, hne, hpet], hpsh⟩

theorem goodState_createShelter (s : State) (c shelterId : String)
    (p : ShelterPayload) (h : GoodState s) :
    GoodState (createShelter s c shelterId p).2 := by
  obtain ⟨h1, h2, h3⟩ := h
  cases hv : validateShelterPayload p
  · rw [createShelter_invalid s c shelterId p hv]
    exact ⟨h1, h2, h3⟩
  · rw [createShelter_ok s c shelterId p hv]
    refine ⟨h1, ?_, ?_⟩
    · intro k q hq
      simp only [Store.get_insert] at hq
      by_cases hk : shelterId = k
      · rw [if_pos hk] at hq
        cases hq
        exact hk
      · rw [if_neg hk] at hq
        exact h2 k q hq
    · intro k q hq pid hpid
      simp only [Store.get_insert] at hq
      by_cases hk : shelterId = k
      · rw [if_pos hk] at hq
        cases hq
        simp [newShelter] at hpid
      · rw [if_neg hk] at hq
        exact h3 k q hq pid hpid

theorem goodState_step {s s' : State} (h : GoodState s) (hstep : Step s s') :
    GoodState s' := by
  cases hstep with
  | user c uid p _ =>
      exact goodState_of_eq s _ (addUser_pets_shelters s c uid p).1
        (addUser_pets_shelters s c uid p).2 h
  | pet petId p fresh =>
      exact goodState_addPet s petId p fresh h
  | petImage p =>
      rcases hp : s.pets.get p.petId with _ | pet
      · rw [addPetImage_absent s p hp]
        exact h
      · rw [addPetImage_ok s p pet hp]
        exact goodState_pets_update s p.petId pet
          { pet with petImage := p.petImage } hp rfl rfl h
  | petInfo p =>
      rcases hp : s.pets.get p.petId with _ | pet
      · rw [updatePetInfo_absent s p hp]
        exact h
      · cases hv : validatePet (mergedPet pet p)
        · rw [updatePetInfo_invalid s p pet hp hv]
          exact h
        · rw [updatePetInfo_ok s p pet hp hv]
          exact goodState_pets_update s p.petId pet (mergedPet pet p) hp rfl rfl h
  | shelter c shelterId p _ =>
      exact goodState_createShelter s c shelterId p h
  | shelterInfo p =>
      rcases hs : s.shelters.get p.id with _ | sh
      · rw [updateShelterInfo_absent s p hs]
        exact h
      · cases hv : validateShelter (mergedShelter sh p)
        · rw [updateShelterInfo_invalid s p sh hs hv]
          exact h
        · rw [updateShelterInfo_ok s p sh hs hv]
          have hid : (mergedShelter sh p).id = sh.id := by
            show p.id = sh.id
            exact (h.2.1 p.id sh hs).symm
          exact goodState_shelters_update s p.id sh (mergedShelter sh p) hs hid rfl h
  | file aid t p _ =>
      exact goodState_of_eq s _ (fileForAdoption_pets_shelters s aid t p).1
        (fileForAdoption_pets_shelters s aid t p).2 h
  | adoptionInfo p =>
      exact goodState_of_eq s _ (updateAdoptionRecord_pets_shelters s p).1
        (updateAdoptionRecord_pets_shelters s p).2 h
  | complete aid =>
      rcases ha : s.adoptions.get aid with _ | a
      · rw [completeAdoption_absent s aid ha]
        exact h
      · by_cases hst : a.status = "pending"
        · rcases hp : s.pets.get a.petId with _ | pet
          · rw [completeAdoption_noPet s aid a ha hst hp]
            exact h
          · rw [completeAdoption_ok s aid a pet ha hst hp]
            exact goodState_of_eq _ _ rfl rfl
              (goodState_pets_update s a.petId pet { pet with status := "adopted" }
                hp rfl rfl h)
        · rw [completeAdoption_notPending s aid a ha hst]
          exact h
  | fail aid =>
      exact goodState_of_eq s _ (failAdoption_pets_shelters s aid).1
        (failAdoption_pets_shelters s aid).2 h

theorem reachable_goodState {s : State} (h : Reachable s) : GoodState s := by
  induction h with
  | init =>
      refine ⟨?_, ?_, ?_⟩ <;> intro k x hk <;> exact Option.noConfusion hk
  | step _ hstep ih =>
      exact goodState_step ih hstep

/-! Claim theorems. -/

/-- C1 counterexample: the at-most-one-pending-record-per-pet invariant is
refuted. `st5` is reachable (shelter, pet, user, then two filings for the
same pet: both succeed because filing leaves `Pet.status` at
`notAdopted`), yet pet `P` has two pending adoption records there. -/
theorem at_most_one_pending_refuted :
    ¬ ∀ s, Reachable s → ∀ petId, (pendingFor s petId).length ≤ 1 := by
  intro h
  have h1 := h st5 reachable_st5 "P"
  have h2 : (pendingFor st5 "P").length = 2 := by decide
  omega

/-- C1 (amended): filing is gated only by the pet's current status — a
successful `fileForAdoption` requires the referenced pet to have status
`notAdopted` at filing time and creates a `pending` record; since filing
does not change `Pet.status`, this does not bound the number of pending
records per pet. -/
theorem fileForAdoption_requires_notAdopted (s : State) (aid t : String)
    (p : AdoptionPayload) (rec : AdoptionRecords)
    (h : (fileForAdoption s aid t p).1 = .ok rec) :
    ∃ pet, s.pets.get p.petId = some pet ∧ pet.status = "notAdopted" ∧
      rec.status = "pending" := by
  obtain ⟨hv, user, pet, hu, hp, hst, hrec, hpost⟩ :=
    fileForAdoption_ok_inv s aid t p rec h
  exact ⟨pet, hp, hst, by rw [hrec]; rfl⟩

theorem fileForAdoption_requires_notAdopted_witness :
    ∃ pet, st3.pets.get adoptPl.petId = some pet ∧ pet.status = "notAdopted" ∧
      (filedRecord "A1" "t1" (newUser "caller1" "U" userPl) (newPet "P" petPl)
        adoptPl).status = "pending" :=
  fileForAdoption_requires_notAdopted st3 "A1" "t1" adoptPl
    (filedRecord "A1" "t1" (newUser "caller1" "U" userPl) (newPet "P" petPl) adoptPl)
    (by decide)

/-- C2: whenever an operation returns an error result (`NotFound`,
`InvalidPayload` or `ValidationError`), the resulting state is exactly the
starting state — no mutation happens on any error path. -/
theorem error_leaves_state_unchanged :
    (∀ s c uid p e, (addUser s c uid p).1 = .error e → (addUser s c uid p).2 = s) ∧
    (∀ s petId p e, (addPet s petId p).1 = .error e → (addPet s petId p).2 = s) ∧
    (∀ s p e, (addPetImage s p).1 = .error e → (addPetImage s p).2 = s) ∧
    (∀ s p e, (updatePetInfo s p).1 = .error e → (updatePetInfo s p).2 = s) ∧
    (∀ s c shid p e, (createShelter s c shid p).1 = .error e →
      (createShelter s c shid p).2 = s) ∧
    (∀ s p e, (updateShelterInfo s p).1 = .error e → (updateShelterInfo s p).2 = s) ∧
    (∀ s aid t p e, (fileForAdoption s aid t p).1 = .error e →
      (fileForAdoption s aid t p).2 = s) ∧
    (∀ s p e, (updateAdoptionRecord s p).1 = .error e →
      (updateAdoptionRecord s p).2 = s) ∧
    (∀ s aid e, (completeAdoption s aid).1 = .error e → (completeAdoption s aid).2 = s) ∧
    (∀ s aid e, (failAdoption s aid).1 = .error e → (failAdoption s aid).2 = s) :=
  ⟨addUser_error, addPet_error, addPetImage_error, updatePetInfo_error,
   createShelter_error, updateShelterInfo_error, fileForAdoption_error,
   updateAdoptionRecord_error, completeAdoption_error, failAdoption_error⟩

theorem error_leaves_state_unchanged_witness :
    (addUser initState "c" "u" ⟨"", "", "", ""⟩).2 = initState ∧
    (addPet initState "P" petPl).2 = initState ∧
    (addPetImage initState ⟨"X", "img"⟩).2 = initState ∧
    (updatePetInfo initState ⟨"X", "h", "a"⟩).2 = initState ∧
    (createShelter initState "c" "S" ⟨"", "", "", ""⟩).2 = initState ∧
    (updateShelterInfo initState ⟨"X", "p", "e"⟩).2 = initState ∧
    (fileForAdoption initState "A" "t" adoptPl).2 = initState ∧
    (updateAdoptionRecord initState ⟨"X", "n", "p", "a", "r"⟩).2 = initState ∧
    (completeAdoption initState "X").2 = initState ∧
    (failAdoption initState "X").2 = initState :=
  ⟨error_leaves_state_unchanged.1 initState "c" "u" ⟨"", "", "", ""⟩
      (.ValidationError "Invalid user payload. Please check all fields.") (by decide),
   error_leaves_state_unchanged.2.1 initState "P" petPl
      (.NotFound "Shelter with ID S not found.") (by decide),
   error_leaves_state_unchanged.2.2.1 initState ⟨"X", "img"⟩
      (.NotFound "Pet with ID X not found.") (by decide),
   error_leaves_state_unchanged.2.2.2.1 initState ⟨"X", "h", "a"⟩
      (.NotFound "Pet not found.") (by decide),
   error_leaves_state_unchanged.2.2.2.2.1 initState "c" "S" ⟨"", "", "", ""⟩
      (.ValidationError "Invalid shelter payload. Please check all fields.") (by decide),
   error_leaves_state_unchanged.2.2.2.2.2.1 initState ⟨"X", "p", "e"⟩
      (.NotFound "Shelter not found.") (by decide),
   error_leaves_state_unchanged.2.2.2.2.2.2.1 initState "A" "t" adoptPl
      (.NotFound "User with ID U not found.") (by decide),
   error_leaves_state_unchanged.2.2.2.2.2.2.2.1 initState ⟨"X", "n", "p", "a", "r"⟩
      (.NotFound "Adoption record not found.") (by decide),
   error_leaves_state_unchanged.2.2.2.2.2.2.2.2.1 initState "X"
      (.NotFound "Adoption record not found.") (by decide),
   error_leaves_state_unchanged.2.2.2.2.2.2.2.2.2 initState "X"
      (.NotFound "Adoption record not found.") (by decide)⟩

/-- An adoption payload whose ids resolve at `st3` but whose
`reasonForAdoption` is empty, so payload validation fails. -/
def noReasonPl : AdoptionPayload := ⟨"P", "U", "0123456789", "12 Main St", ""⟩

/-- C3 counterexample: a payload whose userId and petId resolve and whose
referenced pet is `notAdopted` can still fail with `ValidationError`
(empty `reasonForAdoption`), because payload validation runs before the
status dichotomy the claim describes. -/
theorem fileForAdoption_dichotomy_refuted :
    (st3.users.get noReasonPl.userId).isSome = true ∧
    (st3.pets.get noReasonPl.petId).map Pet.status = some "notAdopted" ∧
    (fileForAdoption st3 "A" "t" noReasonPl).1 =
      .error (.ValidationError "Invalid adoption payload. Please check all fields.") :=
  ⟨by decide, by decide, by decide⟩

/-- C3 (amended): for every payload that passes adoption-payload
validation and whose ids resolve: if the pet's status is not `notAdopted`
the call fails with `InvalidPayload` and changes nothing; otherwise it
succeeds, stores a pending record under the new id, appends that id to
the user's applications list, and leaves the Pets (and Shelters) stores
unchanged. -/
theorem fileForAdoption_behavior (s : State) (aid t : String)
    (p : AdoptionPayload) (user : User) (pet : Pet)
    (hv : validateAdoptionPayload p = true)
    (hu : s.users.get p.userId = some user)
    (hp : s.pets.get p.petId = some pet) :
    (pet.status ≠ "notAdopted" →
      fileForAdoption s aid t p =
        (.error (.InvalidPayload "Pet is not available for adoption."), s)) ∧
    (pet.status = "notAdopted" →
      (fileForAdoption s aid t p).1 = .ok (filedRecord aid t user pet p) ∧
      (filedRecord aid t user pet p).status = "pending" ∧
      (fileForAdoption s aid t p).2.adoptions.get aid =
        some (filedRecord aid t user pet p) ∧
      (fileForAdoption s aid t p).2.users.get user.id =
        some { user with application := user.application ++ [aid] } ∧
      (fileForAdoption s aid t p).2.pets = s.pets ∧
      (fileForAdoption s aid t p).2.shelters = s.shelters) := by
  constructor
  · intro hst
    exact fileForAdoption_unavailable s aid t p user pet hv hu hp hst
  · intro hst
    rw [fileForAdoption_ok s aid t p user pet hv hu hp hst]
    exact ⟨rfl, rfl, Store.get_insert_self _ _ _, Store.get_insert_self _ _ _,
      rfl, rfl⟩

theorem fileForAdoption_behavior_witness :
    (fileForAdoption st3 "A1" "t1" adoptPl).1 =
      .ok (filedRecord "A1" "t1" (newUser "caller1" "U" userPl)
        (newPet "P" petPl) adoptPl) ∧
    (fileForAdoption st3 "A1" "t1" adoptPl).2.pets = st3.pets := by
  have h := fileForAdoption_behavior st3 "A1" "t1" adoptPl
    (newUser "caller1" "U" userPl) (newPet "P" petPl)
    (by decide) (by decide) (by decide)
  have h2 := h.2 rfl
  exact ⟨h2.1, h2.2.2.2.2.1⟩

/-- The record created by the first filing (`A1` at `st4`), and its
completed and failed variants. -/
def recA1pending : AdoptionRecords :=
  ⟨"A1", "U", "P", "Rex", "Ann", "0123456789", "12 Main St", "companionship",
   "t1", "pending"⟩

def recA1completed : AdoptionRecords := { recA1pending with status := "completed" }

/-- The record created by the second filing (`A2` at `st5`). -/
def recA2pending : AdoptionRecords :=
  ⟨"A2", "U", "P", "Rex", "Ann", "0123456789", "12 Main St", "companionship",
   "t2", "pending"⟩

/-- C4: `completeAdoption` fails with `NotFound` when the record is
absent, with `InvalidPayload` when its status is not `pending`; on
success it stores the referenced pet with status `adopted` and the record
with status `completed`, and a second `completeAdoption` on the same id
then fails with `InvalidPayload`. -/
theorem completeAdoption_spec (s : State) (aid : String) :
    (s.adoptions.get aid = none →
      completeAdoption s aid = (.error (.NotFound "Adoption record not found."), s)) ∧
    (∀ a, s.adoptions.get aid = some a → a.status ≠ "pending" →
      completeAdoption s aid =
        (.error (.InvalidPayload "Only pending adoptions can be completed."), s)) ∧
    (∀ rec, (completeAdoption s aid).1 = .ok rec →
      ∃ a pet, s.adoptions.get aid = some a ∧ a.status = "pending" ∧
        s.pets.get a.petId = some pet ∧ rec = { a with status := "completed" } ∧
        (completeAdoption s aid).2.pets.get pet.id =
          some { pet with status := "adopted" } ∧
        (completeAdoption s aid).2.adoptions.get aid =
          some { a with status := "completed" } ∧
        completeAdoption (completeAdoption s aid).2 aid =
          (.error (.InvalidPayload "Only pending adoptions can be completed."),
           (completeAdoption s aid).2)) := by
  refine ⟨completeAdoption_absent s aid, completeAdoption_notPending s aid, ?_⟩
  intro rec h
  obtain ⟨a, pet, ha, hst, hp, hrec, hpost⟩ := completeAdoption_ok_inv s aid rec h
  have hget : (completeAdoption s aid).2.adoptions.get aid =
      some { a with status := "completed" } := by
    rw [hpost]
    exact Store.get_insert_self _ _ _
  refine ⟨a, pet, ha, hst, hp, hrec, ?_, hget, ?_⟩
  · rw [hpost]
    exact Store.get_insert_self _ _ _
  · exact completeAdoption_notPending _ aid _ hget
      (show ("completed" : String) ≠ "pending" by decide)

theorem completeAdoption_spec_witness :
    completeAdoption initState "X" =
      (.error (.NotFound "Adoption record not found."), initState) ∧
    completeAdoption st6 "A1" =
      (.error (.InvalidPayload "Only pending adoptions can be completed."), st6) ∧
    (∃ a pet, st5.adoptions.get "A1" = some a ∧ a.status = "pending" ∧
      st5.pets.get a.petId = some pet ∧
      recA1completed = { a with status := "completed" } ∧
      (completeAdoption st5 "A1").2.pets.get pet.id =
        some { pet with status := "adopted" } ∧
      (completeAdoption st5 "A1").2.adoptions.get "A1" =
        some { a with status := "completed" } ∧
      completeAdoption (completeAdoption st5 "A1").2 "A1" =
        (.error (.InvalidPayload "Only pending adoptions can be completed."),
         (completeAdoption st5 "A1").2)) :=
  ⟨(completeAdoption_spec initState "X").1 (by decide),
   (completeAdoption_spec st6 "A1").2.1 recA1completed (by decide) (by decide),
   (completeAdoption_spec st5 "A1").2.2 recA1completed (by decide)⟩

/-- The failed variant of the second filing. -/
def recA2failed : AdoptionRecords := { recA2pending with status := "failed" }

/-- C5 counterexample: at the reachable state `st6` (two filings for pet
`P`, then `A1` completed, so `P` is `adopted` while `A2` is still
pending), `failAdoption "A2"` succeeds, yet the referenced pet's status
is `adopted`, not `notAdopted`, and a subsequent `fileForAdoption` for
the same pet with a valid resolving payload fails with `InvalidPayload`
instead of succeeding. -/
theorem failAdoption_keeps_notAdopted_refuted :
    Reachable st6 ∧
    (st6.adoptions.get "A2").map AdoptionRecords.status = some "pending" ∧
    (failAdoption st6 "A2").1 = .ok recA2failed ∧
    ((failAdoption st6 "A2").2.pets.get "P").map Pet.status = some "adopted" ∧
    validateAdoptionPayload adoptPl = true ∧
    ((failAdoption st6 "A2").2.users.get adoptPl.userId).isSome = true ∧
    ((failAdoption st6 "A2").2.pets.get adoptPl.petId).isSome = true ∧
    (fileForAdoption (failAdoption st6 "A2").2 "A3" "t3" adoptPl).1 =
      .error (.InvalidPayload "Pet is not available for adoption.") :=
  ⟨reachable_st6, by decide, by decide, by decide, by decide, by decide,
   by decide, by decide⟩

/-- C5 (amended): `failAdoption` fails with `NotFound` when the record is
absent and with `InvalidPayload` when it is not pending; on success it
stores the record with status `failed` and leaves the Pets store (hence
every pet record) unchanged — so the referenced pet keeps whatever status
it had, and in particular when that status is `notAdopted` a subsequent
`fileForAdoption` for the same pet with valid resolving inputs succeeds. -/
theorem failAdoption_spec (s : State) (aid : String) :
    (s.adoptions.get aid = none →
      failAdoption s aid = (.error (.NotFound "Adoption record not found."), s)) ∧
    (∀ a, s.adoptions.get aid = some a → a.status ≠ "pending" →
      failAdoption s aid =
        (.error (.InvalidPayload "Only pending adoptions can be failed."), s)) ∧
    (∀ a, s.adoptions.get aid = some a → a.status = "pending" →
      (failAdoption s aid).1 = .ok { a with status := "failed" } ∧
      (failAdoption s aid).2.adoptions.get aid = some { a with status := "failed" } ∧
      (failAdoption s aid).2.pets = s.pets ∧
      (∀ aid2 t2 p user pet,
        validateAdoptionPayload p = true →
        s.users.get p.userId = some user →
        s.pets.get p.petId = some pet →
        pet.status = "notAdopted" →
        (fileForAdoption (failAdoption s aid).2 aid2 t2 p).1 =
          .ok (filedRecord aid2 t2 user pet p))) := by
  refine ⟨failAdoption_absent s aid, failAdoption_notPending s aid, ?_⟩
  intro a ha hst
  rw [failAdoption_ok s aid a ha hst]
  refine ⟨rfl, Store.get_insert_self _ _ _, rfl, ?_⟩
  intro aid2 t2 p user pet hv hu hp hstt
  have hu' : ({ s with adoptions := s.adoptions.insert aid { a with status := "failed" } }
      : State).users.get p.userId = some user := hu
  have hp' : ({ s with adoptions := s.adoptions.insert aid { a with status := "failed" } }
      : State).pets.get p.petId = some pet := hp
  rw [fileForAdoption_ok _ aid2 t2 p user pet hv hu' hp' hstt]

/-- The user record at `st4` (its applications list already holds `A1`). -/
def userUafterA1 : User :=
  ⟨"U", "caller1", "Ann", "0123456789", "ann@mail.com", "12 Main St", ["A1"]⟩

theorem failAdoption_spec_witness :
    failAdoption initState "X" =
      (.error (.NotFound "Adoption record not found."), initState) ∧
    failAdoption st6 "A1" =
      (.error (.InvalidPayload "Only pending adoptions can be failed."), st6) ∧
    (failAdoption st4 "A1").1 = .ok { recA1pending with status := "failed" } ∧
    (failAdoption st4 "A1").2.pets = st4.pets ∧
    (fileForAdoption (failAdoption st4 "A1").2 "A4" "t4" adoptPl).1 =
      .ok (filedRecord "A4" "t4" userUafterA1 (newPet "P" petPl) adoptPl) := by
  have h := (failAdoption_spec st4 "A1").2.2 recA1pending (by decide) rfl
  exact ⟨(failAdoption_spec initState "X").1 (by decide),
    (failAdoption_spec st6 "A1").2.1 recA1completed (by decide) (by decide),
    h.1, h.2.2.1,
    h.2.2.2 "A4" "t4" adoptPl userUafterA1 (newPet "P" petPl)
      (by decide) (by decide) (by decide) rfl⟩

/-- C6: every reachable state satisfies the shelter/pet referential
invariant; a successful `addPet` with a fresh generated id appends that id
exactly once to the referenced shelter's pet list; and `updatePetInfo`
never changes a pet's `shelterId`. -/
theorem shelter_pet_lists_consistent :
    (∀ s, Reachable s → ShelterPetsConsistent s) ∧
    (∀ s petId (p : PetPayload) pet', Reachable s → s.pets.get petId = none →
      (addPet s petId p).1 = .ok pet' →
      ∃ shelter, s.shelters.get p.shelterId = some shelter ∧
        (addPet s petId p).2.shelters.get shelter.id =
          some { shelter with pets := shelter.pets ++ [petId] } ∧
        (shelter.pets ++ [petId]).count petId = 1) ∧
    (∀ s (p : UpdatePetPayload) pet pet', s.pets.get p.petId = some pet →
      (updatePetInfo s p).1 = .ok pet' → pet'.shelterId = pet.shelterId) := by
  refine ⟨fun s hr => (reachable_goodState hr).2.2, ?_, ?_⟩
  · intro s petId p pet' hr fresh hok
    obtain ⟨hv, _, shelter, hs, hpost⟩ := addPet_ok_inv s petId p pet' hok
    refine ⟨shelter, hs, ?_, ?_⟩
    · rw [hpost]
      exact Store.get_insert_self _ _ _
    · have hnm : petId ∉ shelter.pets := by
        intro hmem
        obtain ⟨pet0, hpet0, _⟩ := (reachable_goodState hr).2.2 _ _ hs petId hmem
        rw [fresh] at hpet0
        exact Option.noConfusion hpet0
      rw [List.count_append, List.count_eq_zero.mpr hnm]
      simp
  · intro s p pet pet' hp hok
    obtain ⟨pet0, hp0, _, hmerge, _⟩ := updatePetInfo_ok_inv s p pet' hok
    have heq : pet = pet0 := Option.some.inj (hp.symm.trans hp0)
    rw [hmerge]
    show pet0.shelterId = pet.shelterId
    rw [heq]

theorem shelter_pet_lists_consistent_witness :
    ShelterPetsConsistent st2 ∧
    (∃ shelter, st1.shelters.get petPl.shelterId = some shelter ∧
      (addPet st1 "P" petPl).2.shelters.get shelter.id =
        some { shelter with pets := shelter.pets ++ ["P"] } ∧
      (shelter.pets ++ ["P"]).count "P" = 1) ∧
    (mergedPet (newPet "P" petPl) ⟨"P", "fine", "3"⟩).shelterId =
      (newPet "P" petPl).shelterId :=
  ⟨shelter_pet_lists_consistent.1 st2 reachable_st2,
   shelter_pet_lists_consistent.2.1 st1 "P" petPl (newPet "P" petPl)
     reachable_st1 (by decide) (by decide),
   shelter_pet_lists_consistent.2.2 st2 ⟨"P", "fine", "3"⟩ (newPet "P" petPl)
     (mergedPet (newPet "P" petPl) ⟨"P", "fine", "3"⟩) (by decide) (by decide)⟩

/-- C7: when the target record exists, `updatePetInfo` and
`updateShelterInfo` validate the merged (existing ⊕ patch) record: if it
fails validation the call returns `ValidationError` and the state is
unchanged; if it passes, the merged record is stored under the record's
id and returned. -/
theorem update_validates_merged :
    (∀ s (p : UpdatePetPayload) pet, s.pets.get p.petId = some pet →
      (validatePet (mergedPet pet p) = false →
        updatePetInfo s p =
          (.error (.ValidationError "Invalid pet payload. Please check all fields."), s)) ∧
      (validatePet (mergedPet pet p) = true →
        updatePetInfo s p =
          (.ok (mergedPet pet p),
           { s with pets := s.pets.insert pet.id (mergedPet pet p) }) ∧
        (updatePetInfo s p).2.pets.get pet.id = some (mergedPet pet p))) ∧
    (∀ s (p : UpdateShelterPayload) sh, s.shelters.get p.id = some sh →
      (validateShelter (mergedShelter sh p) = false →
        updateShelterInfo s p =
          (.error (.ValidationError "Invalid shelter payload. Please check all fields."), s)) ∧
      (validateShelter (mergedShelter sh p) = true →
        updateShelterInfo s p =
          (.ok (mergedShelter sh p),
           { s with shelters := s.shelters.insert sh.id (mergedShelter sh p) }) ∧
        (updateShelterInfo s p).2.shelters.get sh.id = some (mergedShelter sh p))) := by
  constructor
  · intro s p pet hp
    refine ⟨updatePetInfo_invalid s p pet hp, ?_⟩
    intro hv
    refine ⟨updatePetInfo_ok s p pet hp hv, ?_⟩
    rw [updatePetInfo_ok s p pet hp hv]
    exact Store.get_insert_self _ _ _
  · intro s p sh hs
    refine ⟨updateShelterInfo_invalid s p sh hs, ?_⟩
    intro hv
    refine ⟨updateShelterInfo_ok s p sh hs hv, ?_⟩
    rw [updateShelterInfo_ok s p sh hs hv]
    exact Store.get_insert_self _ _ _

theorem update_validates_merged_witness :
    updatePetInfo st2 ⟨"P", "", "3"⟩ =
      (.error (.ValidationError "Invalid pet payload. Please check all fields."), st2) ∧
    (updatePetInfo st2 ⟨"P", "fine", "3"⟩).2.pets.get "P" =
      some (mergedPet (newPet "P" petPl) ⟨"P", "fine", "3"⟩) ∧
    updateShelterInfo st1 ⟨"S", "12", "bad"⟩ =
      (.error (.ValidationError "Invalid shelter payload. Please check all fields."), st1) ∧
    (updateShelterInfo st1 ⟨"S", "9876543210", "new@mail.fr"⟩).2.shelters.get "S" =
      some (mergedShelter (newShelter "owner1" "S" shelterPl)
        ⟨"S", "9876543210", "new@mail.fr"⟩) :=
  ⟨((update_validates_merged.1 st2 ⟨"P", "", "3"⟩ (newPet "P" petPl)
      (by decide)).1 (by decide)),
   ((update_validates_merged.1 st2 ⟨"P", "fine", "3"⟩ (newPet "P" petPl)
      (by decide)).2 (by decide)).2,
   ((update_validates_merged.2 st1 ⟨"S", "12", "bad"⟩
      (newShelter "owner1" "S" shelterPl) (by decide)).1 (by decide)),
   ((update_validates_merged.2 st1 ⟨"S", "9876543210", "new@mail.fr"⟩
      (newShelter "owner1" "S" shelterPl) (by decide)).2 (by decide)).2⟩

/-- C8: the stored adoption record copies `userPhoneNumber` and `address`
from the looked-up user record, takes only `reasonForAdoption` from the
payload, and is otherwise insensitive to the payload's `userPhoneNumber`
and `address` (they are only inspected by validation). -/
theorem fileForAdoption_contact_from_user (s : State) (aid t : String)
    (p : AdoptionPayload) (user : User) (rec : AdoptionRecords)
    (hu : s.users.get p.userId = some user)
    (h : (fileForAdoption s aid t p).1 = .ok rec) :
    rec.userPhoneNumber = user.phoneNumber ∧ rec.address = user.address ∧
    rec.reasonForAdoption = p.reasonForAdoption ∧
    ∀ p' : AdoptionPayload, p'.petId = p.petId → p'.userId = p.userId →
      p'.reasonForAdoption = p.reasonForAdoption →
      validateAdoptionPayload p' = true →
      fileForAdoption s aid t p' = fileForAdoption s aid t p := by
  obtain ⟨hv, user', pet, hu', hp, hst, hrec, hpost⟩ :=
    fileForAdoption_ok_inv s aid t p rec h
  have huu : user' = user := Option.some.inj (hu'.symm.trans hu)
  subst huu
  refine ⟨by rw [hrec]; rfl, by rw [hrec]; rfl, by rw [hrec]; rfl, ?_⟩
  intro p' h1 h2 h3 hv'
  rw [fileForAdoption_ok s aid t p user' pet hv hu' hp hst,
      fileForAdoption_ok s aid t p' user' pet hv' (by rw [h2]; exact hu')
        (by rw [h1]; exact hp) hst]
  simp [filedRecord, h3]

theorem fileForAdoption_contact_from_user_witness :
    (filedRecord "A1" "t1" (newUser "caller1" "U" userPl) (newPet "P" petPl)
      adoptPl).userPhoneNumber = (newUser "caller1" "U" userPl).phoneNumber ∧
    fileForAdoption st3 "A1" "t1" ⟨"P", "U", "9999999999", "Elsewhere", "companionship"⟩ =
      fileForAdoption st3 "A1" "t1" adoptPl := by
  have h := fileForAdoption_contact_from_user st3 "A1" "t1" adoptPl
    (newUser "caller1" "U" userPl)
    (filedRecord "A1" "t1" (newUser "caller1" "U" userPl) (newPet "P" petPl) adoptPl)
    (by decide) (by decide)
  exact ⟨h.1, h.2.2.2 ⟨"P", "U", "9999999999", "Elsewhere", "companionship"⟩
    rfl rfl rfl (by decide)⟩

/-- C9: when a pending adoption record references a pet id that does not
resolve, `completeAdoption` returns `NotFound` and leaves the whole state
unchanged — the record stays pending and the Pets store is untouched. -/
theorem completeAdoption_dangling_pet (s : State) (aid : String)
    (a : AdoptionRecords)
    (ha : s.adoptions.get aid = some a) (hst : a.status = "pending")
    (hp : s.pets.get a.petId = none) :
    completeAdoption s aid = (.error (.NotFound "Associated pet not found."), s) ∧
    (completeAdoption s aid).2.adoptions.get aid = some a ∧
    (completeAdoption s aid).2.pets = s.pets := by
  have h := completeAdoption_noPet s aid a ha hst hp
  rw [h]
  exact ⟨rfl, ha, rfl⟩

/-- A state holding a single pending adoption record whose `petId` does
not resolve. -/
def recDangling : AdoptionRecords :=
  ⟨"A", "U", "Z", "Rex", "Ann", "0123456789", "12 Main St", "companionship",
   "t", "pending"⟩

def stDangling : State := ⟨[], [], [], [("A", recDangling)]⟩

theorem completeAdoption_dangling_pet_witness :
    completeAdoption stDangling "A" =
      (.error (.NotFound "Associated pet not found."), stDangling) ∧
    (completeAdoption stDangling "A").2.adoptions.get "A" = some recDangling ∧
    (completeAdoption stDangling "A").2.pets = stDangling.pets :=
  completeAdoption_dangling_pet stDangling "A" recDangling
    (by decide) (by decide) (by decide)

/-- C10: `getPetsNotAdopted` returns exactly the stored pets whose status
is `notAdopted`, and `searchPetsBySpecies` returns exactly the stored
pets whose species equals the query up to lower-casing (full-string
equality, not substring containment). -/
theorem query_filters (s : State) (pet : Pet) (q : String) :
    (pet ∈ getPetsNotAdopted s ↔ pet ∈ s.pets.values ∧ pet.status = "notAdopted") ∧
    (pet ∈ searchPetsBySpecies s q ↔
      pet ∈ s.pets.values ∧ lowerStr pet.species = lowerStr q) := by
  constructor
  · simp [getPetsNotAdopted, List.mem_filter]
  · simp [searchPetsBySpecies, List.mem_filter]

end PetAdoption
